import Mathlib

/-!
Verification development for the `vibe` terminal-session recorder
(`src-tauri/src/main.rs`, `src-tauri/src/pty.rs`, `src-tauri/src/db.rs`).

The Rust code is shallowly embedded as pure Lean functions over explicit
state.  External effects are passed in as parameters:

* fresh UUIDs and `Utc::now()` timestamps become explicit `String`/`Int`
  arguments (they are produced by the environment, not by the logic under
  test);
* a fallible SQLite statement is modelled by the success path of the
  statement together with a boolean oracle argument (`dbOk`, `logOk`,
  `spawnOk`) telling whether the underlying statement succeeded; on
  failure the statement changes nothing and the Rust wrapper produces the
  corresponding error string;
* a crossbeam channel endpoint is a FIFO buffer of byte chunks plus a
  `closed` flag meaning that the opposite endpoint has been dropped;
* bytes are `Nat` values (< 256 in every real execution); a SQLite TEXT
  value is represented by its UTF-8 byte sequence, so the effect of
  Rust `String.from_utf8_lossy` is the byte-level function `utf8Lossy`
  below (valid UTF-8 sequences pass through, each invalid subsequence is
  replaced by the three UTF-8 bytes of U+FFFD, following the maximal
  subpart policy of the Rust standard library).
-/

namespace Vibe

/-- Is `b` a UTF-8 continuation byte (0x80..0xBF)? -/
def contByte (b : Nat) : Bool := 0x80 ≤ b && b ≤ 0xBF

/-- UTF-8 encoding of the replacement character U+FFFD. -/
def repChar : List Nat := [0xEF, 0xBF, 0xBD]

/-- Step helper for three-byte sequences: `lo..hi` is the admissible range of
the second byte.  Returns (bytes consumed, valid?). -/
def step3 (lo hi : Nat) (rest : List Nat) : Nat × Bool :=
  match rest with
  | [] => (1, false)
  | b1 :: r2 =>
    if lo ≤ b1 && b1 ≤ hi then
      match r2 with
      | [] => (2, false)
      | b2 :: _ => if contByte b2 then (3, true) else (2, false)
    else (1, false)

/-- Step helper for four-byte sequences: `lo..hi` is the admissible range of
the second byte.  Returns (bytes consumed, valid?). -/
def step4 (lo hi : Nat) (rest : List Nat) : Nat × Bool :=
  match rest with
  | [] => (1, false)
  | b1 :: r2 =>
    if lo ≤ b1 && b1 ≤ hi then
      match r2 with
      | [] => (2, false)
      | b2 :: r3 =>
        if contByte b2 then
          match r3 with
          | [] => (3, false)
          | b3 :: _ => if contByte b3 then (4, true) else (3, false)
        else (2, false)
    else (1, false)

/-- One step of UTF-8 validation at lead byte `b0` followed by `rest`:
how many bytes the maximal subpart occupies and whether it is a valid
scalar-value encoding. -/
def utf8Step (b0 : Nat) (rest : List Nat) : Nat × Bool :=
  if b0 < 0x80 then (1, true)
  else if b0 < 0xC2 then (1, false)
  else if b0 ≤ 0xDF then
    (match rest with
     | [] => (1, false)
     | b1 :: _ => if contByte b1 then (2, true) else (1, false))
  else if b0 == 0xE0 then step3 0xA0 0xBF rest
  else if b0 ≤ 0xEC then step3 0x80 0xBF rest
  else if b0 == 0xED then step3 0x80 0x9F rest
  else if b0 ≤ 0xEF then step3 0x80 0xBF rest
  else if b0 == 0xF0 then step4 0x90 0xBF rest
  else if b0 ≤ 0xF3 then step4 0x80 0xBF rest
  else if b0 == 0xF4 then step4 0x80 0x8F rest
  else (1, false)

/-- Fuel-driven worker for `utf8Lossy`; each step consumes at least one byte,
so `l.length` fuel always suffices. -/
def utf8LossyGo : Nat → List Nat → List Nat
  | 0, _ => []
  | _ + 1, [] => []
  | fuel + 1, b0 :: rest =>
    let p := utf8Step b0 rest
    (if p.2 then b0 :: rest.take (p.1 - 1) else repChar) ++
      utf8LossyGo fuel (rest.drop (p.1 - 1))

/-- Byte-level effect of Rust `String.from_utf8_lossy` followed by re-encoding
the resulting string as UTF-8 (which is how the TEXT column stores it). -/
def utf8Lossy (l : List Nat) : List Nat := utf8LossyGo l.length l

/-- Row of the `sessions` table (db.rs, struct Session). -/
structure Session where
  id : String
  started_at : String
  ended_at : Option String
  cwd : String
  shell : String
deriving DecidableEq, Repr

/-- Row of the `events` table (db.rs, struct Event); `data` is the stored
TEXT as its UTF-8 byte sequence. -/
structure Event where
  id : String
  session_id : String
  ts : String
  kind : String
  data : List Nat
deriving DecidableEq, Repr

/-- Row of the `commands` table (db.rs, commands schema). -/
structure CommandRec where
  id : String
  session_id : String
  started_at : Int
  ended_at : Option Int
  exit_code : Option Int
  input : String
deriving DecidableEq, Repr

/-- The SQLite database contents: the three tables, each in rowid
(insertion) order. -/
structure Database where
  sessions : List Session
  events : List Event
  commands : List CommandRec
deriving DecidableEq, Repr

/-- Byte-wise strict comparison of char lists (SQLite TEXT comparison is a
memcmp of the UTF-8 bytes, which agrees with code-point order). -/
def listLtB : List Char → List Char → Bool
  | [], [] => false
  | [], _ :: _ => true
  | _ :: _, [] => false
  | a :: as, b :: bs =>
    if a.toNat < b.toNat then true
    else if b.toNat < a.toNat then false
    else listLtB as bs

/-- Strict TEXT comparison of two timestamps. -/
def tsLtB (a b : String) : Bool := listLtB a.data b.data

/-- Non-strict TEXT comparison of two timestamps. -/
def tsLeB (a b : String) : Bool := ! tsLtB b a

/-- Insert an event into a list sorted by ascending `ts`. -/
def insertTs (e : Event) : List Event → List Event
  | [] => [e]
  | x :: xs => if tsLeB x.ts e.ts then x :: insertTs e xs else e :: x :: xs

/-- Sort events by ascending `ts` (model of `ORDER BY ts ASC`). -/
def sortByTs : List Event → List Event
  | [] => []
  | e :: es => insertTs e (sortByTs es)

/-- Is the event list strictly ascending in `ts` between neighbours? -/
def strictAsc : List Event → Bool
  | [] => true
  | [_] => true
  | a :: b :: r => tsLtB a.ts b.ts && strictAsc (b :: r)

/-- Concatenation of a list of byte chunks. -/
def concatAll : List (List Nat) → List Nat
  | [] => []
  | x :: xs => x ++ concatAll xs

/-- Events of session `S` in insertion order (`WHERE session_id = ?1`). -/
def eventsFor (S : String) (db : Database) : List Event :=
  db.events.filter (fun e => e.session_id == S)

/-- db.rs `Database::create_session`: success path of the INSERT; the fresh
UUID and the `Utc::now()` RFC 3339 timestamp are the arguments `sid`, `ts`.
The row is inserted with a NULL `ended_at`. -/
def Database.create_session (db : Database) (sid ts cwd shell : String) :
    Database × Session :=
  let sess : Session := ⟨sid, ts, none, cwd, shell⟩
  ({ db with sessions := db.sessions ++ [sess] }, sess)

/-- db.rs `Database::end_session`: UPDATE of `ended_at` for the matching id. -/
def Database.end_session (db : Database) (session_id ts : String) : Database :=
  { db with
    sessions := db.sessions.map (fun x =>
      if x.id == session_id then { x with ended_at := some ts } else x) }

/-- db.rs `Database::add_event`: success path of the INSERT of one event row. -/
def Database.add_event (db : Database) (id session_id ts kind : String)
    (data : List Nat) : Database :=
  { db with events := db.events ++ [⟨id, session_id, ts, kind, data⟩] }

/-- db.rs `Database::get_events`: SELECT of the events of one session,
`ORDER BY ts ASC`. -/
def Database.get_events (db : Database) (session_id : String) : List Event :=
  sortByTs (eventsFor session_id db)

/-- db.rs `Database::create_command`: INSERT of one command row with NULL
`ended_at` and NULL `exit_code`; returns the fresh id. -/
def Database.create_command (db : Database) (id session_id input : String)
    (started_at : Int) : Database × String :=
  ({ db with commands := db.commands ++ [⟨id, session_id, started_at, none, none, input⟩] },
   id)

/-- Does the command row belong to session `S` with NULL `ended_at`? -/
def isOpenCmd (S : String) (c : CommandRec) : Bool :=
  c.session_id == S && c.ended_at.isNone

/-- Model of the SELECT in db.rs `Database::end_command`: the unterminated
command of the session with maximal `started_at`
(`WHERE session_id = ?1 AND ended_at IS NULL ORDER BY started_at DESC LIMIT 1`). -/
def pickOpen (S : String) : List CommandRec → Option CommandRec
  | [] => none
  | c :: cs =>
    match pickOpen S cs with
    | none => if isOpenCmd S c then some c else none
    | some b =>
      if isOpenCmd S c then
        (if b.started_at > c.started_at then some b else some c)
      else some b

/-- db.rs `Database::end_command`: find the most recent unfinished command of
the session and, when one exists, set its `ended_at` and `exit_code`. -/
def Database.end_command (db : Database) (session_id : String)
    (exit_code ended_at : Int) : Database :=
  match pickOpen session_id db.commands with
  | none => db
  | some c =>
    { db with
      commands := db.commands.map (fun x =>
        if x.id == c.id then { x with ended_at := some ended_at, exit_code := some exit_code }
        else x) }

/-- One endpoint view of a crossbeam unbounded channel: the FIFO buffer of
pending byte chunks and whether the opposite endpoint has been dropped. -/
structure Chan where
  buf : List (List Nat)
  closed : Bool
deriving DecidableEq, Repr

/-- The pty master size (`PtySize`); the pixel fields are always 0 in the
source and are omitted. -/
structure PtySize where
  cols : Nat
  rows : Nat
deriving DecidableEq, Repr

/-- pty.rs `PtySession`: the session id, the current master size, the
receiving end of the output-pump channel and the sending end of the
input-pump channel. -/
structure PtySession where
  session_id : String
  size : PtySize
  output_rx : Chan
  writer_tx : Chan
deriving DecidableEq, Repr

/-- pty.rs `PtySession::new`, success path: openpty with the given size plus
a fresh pair of open, empty channels (spawn failure is decided by the
`spawnOk` oracle at the call site in `start_session`). -/
def PtySession.new (session_id : String) (cols rows : Nat) : PtySession :=
  ⟨session_id, ⟨cols, rows⟩, ⟨[], false⟩, ⟨[], false⟩⟩

/-- pty.rs `PtySession::read_output`: `output_rx.try_recv().ok()` — pop the
next buffered chunk if any; both an empty and a disconnected channel give
`none`. -/
def PtySession.read_output (s : PtySession) : Option (List Nat) × PtySession :=
  match s.output_rx.buf with
  | [] => (none, s)
  | d :: rest => (some d, { s with output_rx := { s.output_rx with buf := rest } })

/-- pty.rs `PtySession::write_input`: `writer_tx.send(data.to_vec())` — fails
exactly when the receiving pump has been dropped, otherwise appends the
chunk to the FIFO buffer. -/
def PtySession.write_input (s : PtySession) (data : List Nat) :
    Except String PtySession :=
  if s.writer_tx.closed then .error "Failed to send input to PTY"
  else .ok { s with writer_tx := { s.writer_tx with buf := s.writer_tx.buf ++ [data] } }

/-- Modelled from the spec: the OS resize call on the pty master is not in
src/ (it lives in the portable_pty crate); per the spec it "fails with
ResizeError on invalid size or OS rejection", and a dimension is invalid
when it is not > 0. -/
def osResize (cols rows : Nat) : Bool := cols != 0 && rows != 0

/-- pty.rs `PtySession::resize`: synchronous resize of the pty master; on
success the stored size changes, on failure nothing changes. -/
def PtySession.resize (s : PtySession) (cols rows : Nat) :
    Except String PtySession :=
  if osResize cols rows then .ok { s with size := ⟨cols, rows⟩ }
  else .error "Failed to resize PTY"

/-- main.rs `AppState`: the database plus the registry slot holding at most
one live pty session. -/
structure AppState where
  db : Database
  pty : Option PtySession
deriving DecidableEq, Repr

/-- main.rs `start_session`: create the session row, then create the pty,
then store the handle (overwriting whatever was there).  `cwd` and `shell`
come from the process environment; `sid`/`ts` are the fresh UUID and
timestamp; `dbOk` and `spawnOk` are the oracles for the INSERT and for
`PtySession::new`. -/
def start_session (st : AppState) (cols rows : Nat) (cwd shell sid ts : String)
    (dbOk spawnOk : Bool) : AppState × Except String String :=
  if dbOk then
    let p := st.db.create_session sid ts cwd shell
    if spawnOk then
      ({ db := p.1, pty := some (PtySession.new p.2.id cols rows) }, .ok p.2.id)
    else
      ({ st with db := p.1 }, .error "Failed to create PTY")
  else
    (st, .error "Failed to create session")

/-- main.rs `send_input`: with no active session, do nothing and succeed;
otherwise enqueue the bytes to the input pump and then log a `user_in`
event holding the lossy UTF-8 decoding of the bytes; a failed write and a
failed log INSERT (`logOk = false`) are both surfaced as errors, but the
enqueue is kept even when the log fails. -/
def send_input (st : AppState) (data : List Nat) (eid ts : String)
    (logOk : Bool) : AppState × Except String Unit :=
  match st.pty with
  | none => (st, .ok ())
  | some s =>
    match s.write_input data with
    | .error e => (st, .error ("Failed to write input: " ++ e))
    | .ok s2 =>
      if logOk then
        ({ db := st.db.add_event eid s.session_id ts "user_in" (utf8Lossy data),
           pty := some s2 }, .ok ())
      else
        ({ st with pty := some s2 }, .error "Failed to log input")

/-- main.rs `read_output`: with no active session, report no data; otherwise
poll the output channel; when a chunk arrives, log a `pty_out` event
best-effort (a failed INSERT, `logOk = false`, is swallowed by `.ok()`) and
return the chunk. -/
def read_output (st : AppState) (eid ts : String) (logOk : Bool) :
    AppState × Except String (Option (List Nat)) :=
  match st.pty with
  | none => (st, .ok none)
  | some s =>
    match s.read_output with
    | (none, s2) => ({ st with pty := some s2 }, .ok none)
    | (some data, s2) =>
      let db2 :=
        if logOk then st.db.add_event eid s.session_id ts "pty_out" (utf8Lossy data)
        else st.db
      ({ db := db2, pty := some s2 }, .ok (some data))

/-- main.rs `resize_pty`: with no active session, succeed without touching
anything; otherwise resize the pty and surface its failure. -/
def resize_pty (st : AppState) (cols rows : Nat) : AppState × Except String Unit :=
  match st.pty with
  | none => (st, .ok ())
  | some s =>
    match s.resize cols rows with
    | .error e => (st, .error ("Failed to resize: " ++ e))
    | .ok s2 => ({ st with pty := some s2 }, .ok ())

/-- main.rs `end_session`: take the handle out of the registry slot (dropping
it) and, when one was present, mark the session row ended; the UPDATE
failure oracle is `dbOk`.  The handle is dropped even when the UPDATE
fails. -/
def end_session (st : AppState) (ts : String) (dbOk : Bool) :
    AppState × Except String Unit :=
  match st.pty with
  | none => (st, .ok ())
  | some s =>
    if dbOk then
      ({ db := st.db.end_session s.session_id ts, pty := none }, .ok ())
    else
      ({ st with pty := none }, .error "Failed to end session")

/-- main.rs `get_session_events`: fetch the events of one session, ascending
by timestamp. -/
def get_session_events (st : AppState) (session_id : String) : List Event :=
  st.db.get_events session_id

/-- Concurrency-environment operations interleaved with the command surface,
for reasoning about whole sessions:

* `opSend` / `opRead` / `opResize` / `opStart` / `opEnd` invoke the
  corresponding main.rs command with its environment arguments;
* `opPtyOut` is the output pump delivering one chunk read from the pty
  master into the output channel;
* `opWriterDrop` / `opReaderDrop` are the input/output pump threads
  terminating (dropping their channel endpoint). -/
inductive Op where
  | opSend (data : List Nat) (eid ts : String) (logOk : Bool)
  | opRead (eid ts : String) (logOk : Bool)
  | opPtyOut (data : List Nat)
  | opResize (cols rows : Nat)
  | opWriterDrop
  | opReaderDrop
  | opStart (cols rows : Nat) (cwd shell sid ts : String) (dbOk spawnOk : Bool)
  | opEnd (ts : String) (dbOk : Bool)
deriving DecidableEq, Repr

/-- Output pump delivery: push one chunk onto the output channel (only
possible while the pump is alive, i.e. the sender is not dropped). -/
def ptyOutStep (st : AppState) (data : List Nat) : AppState :=
  match st.pty with
  | none => st
  | some s =>
    if s.output_rx.closed then st
    else { st with pty := some { s with output_rx := { s.output_rx with buf := s.output_rx.buf ++ [data] } } }

/-- Input pump termination: the writer thread exits, dropping `writer_rx`,
so the sender observes a closed channel. -/
def writerDropStep (st : AppState) : AppState :=
  match st.pty with
  | none => st
  | some s => { st with pty := some { s with writer_tx := { s.writer_tx with closed := true } } }

/-- Output pump termination: the reader thread exits, dropping `output_tx`. -/
def readerDropStep (st : AppState) : AppState :=
  match st.pty with
  | none => st
  | some s => { st with pty := some { s with output_rx := { s.output_rx with closed := true } } }

/-- One environment step.  Besides the next state it reports the byte chunks
written to the pty in this step (chunks accepted by the input channel) and
the byte chunks read from the pty in this step (chunks returned by
`read_output`). -/
def stepOne (st : AppState) : Op → AppState × List (List Nat) × List (List Nat)
  | .opSend data eid ts lo =>
    let w : List (List Nat) :=
      match st.pty with
      | some s => if s.writer_tx.closed then [] else [data]
      | none => []
    ((send_input st data eid ts lo).1, w, [])
  | .opRead eid ts lo =>
    let out := read_output st eid ts lo
    let r : List (List Nat) :=
      match out.2 with
      | .ok (some d) => [d]
      | _ => []
    (out.1, [], r)
  | .opPtyOut data => (ptyOutStep st data, [], [])
  | .opResize cols rows => ((resize_pty st cols rows).1, [], [])
  | .opWriterDrop => (writerDropStep st, [], [])
  | .opReaderDrop => (readerDropStep st, [], [])
  | .opStart cols rows cwd shell sid ts dbOk spawnOk =>
    ((start_session st cols rows cwd shell sid ts dbOk spawnOk).1, [], [])
  | .opEnd ts dbOk => ((end_session st ts dbOk).1, [], [])

/-- Run a list of environment steps, accumulating the written and read
chunk sequences in order. -/
def runT (st : AppState) : List Op → AppState × List (List Nat) × List (List Nat)
  | [] => (st, [], [])
  | op :: ops =>
    let x := stepOne st op
    let y := runT x.1 ops
    (y.1, x.2.1 ++ y.2.1, x.2.2 ++ y.2.2)

/-- Operations that keep the current session alive (no start/end). -/
def sessionOp : Op → Bool
  | .opStart _ _ _ _ _ _ _ _ => false
  | .opEnd _ _ => false
  | _ => true

/-- Operations whose event-log INSERT succeeds (true for ops that never
log). -/
def logOkOp : Op → Bool
  | .opSend _ _ _ lo => lo
  | .opRead _ _ lo => lo
  | _ => true

/-- Concatenated payload bytes of the events of one kind, in list order. -/
def kindDataOf (kind : String) (evs : List Event) : List Nat :=
  concatAll ((evs.filter (fun e => e.kind == kind)).map (fun e => e.data))

/-- Concatenated payload bytes of the kind-`kind` events of session `S`, in
insertion order. -/
def kindData (kind S : String) (db : Database) : List Nat :=
  kindDataOf kind (eventsFor S db)

/-- Submit a list of byte buffers through `write_input` in order; the flag
reports whether every send was accepted. -/
def sendAll (s : PtySession) : List (List Nat) → PtySession × Bool
  | [] => (s, true)
  | b :: bs =>
    match s.write_input b with
    | .ok s2 => sendAll s2 bs
    | .error _ => (s, false)

/-- pty.rs writer thread: receive chunks from the channel in FIFO order and
`write_all` each into the pty master, flushing after each; stop on channel
closure or on the first failed write.  `ok k` tells whether the k-th
`write_all` syscall succeeds; `received` accumulates the bytes the shell
process has received. -/
def writerLoop (ok : Nat → Bool) : Nat → List Nat → List (List Nat) → List Nat
  | _, received, [] => received
  | k, received, data :: rest =>
    if ok k then writerLoop ok (k + 1) (received ++ data) rest
    else received

/-- Sample live session handle (fresh pty, open channels). -/
def sessW : PtySession := PtySession.new "S1" 80 24

/-- Sample state with the active session `S1` already registered. -/
def stW1 : AppState := ⟨⟨[⟨"S1", "t0", none, "/", "sh"⟩], [], []⟩, some sessW⟩

/-- Sample state with an active session `S` and an empty event log. -/
def stW2 : AppState :=
  ⟨⟨[⟨"S", "t0", none, "/", "sh"⟩], [], []⟩, some (PtySession.new "S" 80 24)⟩

/-- Two inputs: the invalid UTF-8 byte 0xFF, then a newline, logged with the
same timestamp. -/
def opsC2 : List Op :=
  [Op.opSend [255] "e1" "t1" true, Op.opSend [10] "e2" "t1" true]

/-- A send, a pump delivery and a read, with increasing timestamps. -/
def opsW2 : List Op :=
  [Op.opSend [104] "e1" "t1" true, Op.opPtyOut [111], Op.opRead "e2" "t2" true]

/-- Session handle whose two pump threads have both terminated and whose
output buffer is drained. -/
def deadSession : PtySession := ⟨"S", ⟨80, 24⟩, ⟨[], true⟩, ⟨[], true⟩⟩

/-- Sample state holding `deadSession`. -/
def stW5 : AppState := ⟨⟨[⟨"S", "t0", none, "/", "sh"⟩], [], []⟩, some deadSession⟩

/-- Sample state with no active session. -/
def stNone : AppState := ⟨⟨[⟨"S", "t0", none, "/", "sh"⟩], [], []⟩, none⟩

/-- Database obtained by creating two commands for session `S` without ending
the first. -/
def dbW8 : Database :=
  ((((⟨[], [], []⟩ : Database).create_command "c1" "S" "ls" 100).1).create_command
      "c2" "S" "pwd" 200).1

/-- The most recently started command row of `dbW8`. -/
def cmdW8 : CommandRec := ⟨"c2", "S", 200, none, none, "pwd"⟩

lemma concatAll_append (a b : List (List Nat)) :
    concatAll (a ++ b) = concatAll a ++ concatAll b := by
  induction a with
  | nil => simp [concatAll]
  | cons x xs ih => simp [concatAll, ih]

lemma sortByTs_asc_id (l : List Event) (h : strictAsc l = true) :
    sortByTs l = l := by
  induction l with
  | nil => rfl
  | cons e es ih =>
    cases es with
    | nil => rfl
    | cons x xs =>
      have h1 : tsLtB e.ts x.ts = true := by
        simp [strictAsc] at h; exact h.1
      have h2 : strictAsc (x :: xs) = true := by
        simp [strictAsc] at h
        cases xs with
        | nil => rfl
        | cons y ys => simp [strictAsc] at h ⊢; exact h.2
      have ih2 := ih h2
      simp [sortByTs] at ih2 ⊢
      rw [ih2]
      simp [insertTs, tsLeB, h1]

lemma kindData_add (db : Database) (id S ts kind K : String) (data : List Nat) :
    kindData K S (db.add_event id S ts kind data)
      = kindData K S db ++ (if kind == K then data else []) := by
  simp [kindData, kindDataOf, Database.add_event, eventsFor, List.filter_append,
    concatAll_append]
  by_cases h : kind = K
  · simp [h, concatAll]
  · simp [h, concatAll]

lemma stepOne_effect (st : AppState) (s : PtySession) (op : Op)
    (hso : sessionOp op = true) (hlo : logOkOp op = true) (hpty : st.pty = some s) :
    ∃ s1, (stepOne st op).1.pty = some s1 ∧ s1.session_id = s.session_id ∧
      kindData "user_in" s.session_id (stepOne st op).1.db
        = kindData "user_in" s.session_id st.db
            ++ concatAll (((stepOne st op).2.1).map utf8Lossy) ∧
      kindData "pty_out" s.session_id (stepOne st op).1.db
        = kindData "pty_out" s.session_id st.db
            ++ concatAll (((stepOne st op).2.2).map utf8Lossy) := by
  cases op with
  | opSend data eid ts lo =>
    simp [logOkOp] at hlo
    subst hlo
    cases hc : s.writer_tx.closed with
    | true =>
      refine ⟨s, ?_⟩
      simp [stepOne, send_input, hpty, PtySession.write_input, hc, concatAll]
    | false =>
      refine ⟨{ s with writer_tx := { s.writer_tx with buf := s.writer_tx.buf ++ [data] } }, ?_⟩
      simp [stepOne, send_input, hpty, PtySession.write_input, hc, concatAll,
        kindData_add]
  | opRead eid ts lo =>
    simp [logOkOp] at hlo
    subst hlo
    cases hb : s.output_rx.buf with
    | nil =>
      refine ⟨s, ?_⟩
      simp [stepOne, read_output, hpty, PtySession.read_output, hb, concatAll]
    | cons d rest =>
      refine ⟨{ s with output_rx := { s.output_rx with buf := rest } }, ?_⟩
      simp [stepOne, read_output, hpty, PtySession.read_output, hb, concatAll,
        kindData_add]
  | opPtyOut data =>
    cases hc : s.output_rx.closed with
    | true =>
      refine ⟨s, ?_⟩
      simp [stepOne, ptyOutStep, hpty, hc, concatAll]
    | false =>
      refine ⟨{ s with output_rx := { s.output_rx with buf := s.output_rx.buf ++ [data] } }, ?_⟩
      simp [stepOne, ptyOutStep, hpty, hc, concatAll]
  | opResize cols rows =>
    cases hr : osResize cols rows with
    | true =>
      refine ⟨{ s with size := ⟨cols, rows⟩ }, ?_⟩
      simp [stepOne, resize_pty, hpty, PtySession.resize, hr, concatAll]
    | false =>
      refine ⟨s, ?_⟩
      simp [stepOne, resize_pty, hpty, PtySession.resize, hr, concatAll]
  | opWriterDrop =>
    refine ⟨{ s with writer_tx := { s.writer_tx with closed := true } }, ?_⟩
    simp [stepOne, writerDropStep, hpty, concatAll]
  | opReaderDrop =>
    refine ⟨{ s with output_rx := { s.output_rx with closed := true } }, ?_⟩
    simp [stepOne, readerDropStep, hpty, concatAll]
  | opStart cols rows cwd shell sid ts dbOk spawnOk => simp [sessionOp] at hso
  | opEnd ts dbOk => simp [sessionOp] at hso

lemma runT_events (ops : List Op) :
    ∀ (st : AppState) (s : PtySession),
      (∀ op ∈ ops, sessionOp op = true) → (∀ op ∈ ops, logOkOp op = true) →
      st.pty = some s →
      ∃ s2, (runT st ops).1.pty = some s2 ∧ s2.session_id = s.session_id ∧
        kindData "user_in" s.session_id (runT st ops).1.db
          = kindData "user_in" s.session_id st.db
              ++ concatAll (((runT st ops).2.1).map utf8Lossy) ∧
        kindData "pty_out" s.session_id (runT st ops).1.db
          = kindData "pty_out" s.session_id st.db
              ++ concatAll (((runT st ops).2.2).map utf8Lossy) := by
  induction ops with
  | nil =>
    intro st s _ _ hpty
    exact ⟨s, by simp [runT, hpty, concatAll]⟩
  | cons op ops ih =>
    intro st s hso hlo hpty
    obtain ⟨s1, hs1, hsid1, hu1, hp1⟩ :=
      stepOne_effect st s op (hso op (by simp)) (hlo op (by simp)) hpty
    obtain ⟨s2, hs2, hsid2, hu2, hp2⟩ :=
      ih (stepOne st op).1 s1 (fun o ho => hso o (by simp [ho]))
        (fun o ho => hlo o (by simp [ho])) hs1
    refine ⟨s2, ?_, by rw [hsid2, hsid1], ?_, ?_⟩
    · simp [runT]; exact hs2
    · simp only [runT, List.map_append, concatAll_append]
      rw [hsid1] at hu2
      rw [hu2, hu1, List.append_assoc]
    · simp only [runT, List.map_append, concatAll_append]
      rw [hsid1] at hp2
      rw [hp2, hp1, List.append_assoc]

lemma sendAll_open (bs : List (List Nat)) :
    ∀ s : PtySession, s.writer_tx.closed = false →
      (sendAll s bs).2 = true ∧
      (sendAll s bs).1.writer_tx.closed = false ∧
      (sendAll s bs).1.writer_tx.buf = s.writer_tx.buf ++ bs := by
  induction bs with
  | nil => intro s h; simp [sendAll, h]
  | cons b bs ih =>
    intro s h
    have step := ih { s with writer_tx := { s.writer_tx with buf := s.writer_tx.buf ++ [b] } }
      (by simp [h])
    simp [h] at step
    simp [sendAll, PtySession.write_input, h]
    refine ⟨step.1, step.2.1, ?_⟩
    rw [step.2.2]

lemma writerLoop_ok (ok : Nat → Bool) (hok : ∀ k, ok k = true) :
    ∀ (bs : List (List Nat)) (k : Nat) (acc : List Nat),
      writerLoop ok k acc bs = acc ++ concatAll bs := by
  intro bs
  induction bs with
  | nil => intro k acc; simp [writerLoop, concatAll]
  | cons b bs ih =>
    intro k acc
    simp [writerLoop, hok k, concatAll, ih, List.append_assoc]

lemma pickOpen_none (S : String) (cs : List CommandRec) (h : pickOpen S cs = none) :
    ∀ x ∈ cs, isOpenCmd S x = false := by
  induction cs with
  | nil => simp
  | cons c cs ih =>
    intro x hx
    simp [pickOpen] at h
    rcases hmatch : pickOpen S cs with _ | b
    · rw [hmatch] at h
      simp at h
      rcases List.mem_cons.mp hx with rfl | hx
      · by_cases hc : isOpenCmd S x
        · simp [hc] at h
        · simpa using hc
      · exact ih hmatch x hx
    · rw [hmatch] at h
      by_cases hc : isOpenCmd S c <;> simp [hc] at h
      split at h <;> simp at h

lemma pickOpen_some (S : String) (cs : List CommandRec) (c : CommandRec)
    (h : pickOpen S cs = some c) :
    c ∈ cs ∧ isOpenCmd S c = true ∧
      ∀ x ∈ cs, isOpenCmd S x = true → x.started_at ≤ c.started_at := by
  induction cs generalizing c with
  | nil => simp [pickOpen] at h
  | cons a cs ih =>
    simp only [pickOpen] at h
    rcases hmatch : pickOpen S cs with _ | b
    · rw [hmatch] at h
      by_cases ha : isOpenCmd S a
      · simp [ha] at h
        subst h
        refine ⟨by simp, ha, ?_⟩
        intro x hx hox
        rcases List.mem_cons.mp hx with rfl | hx
        · exact le_refl _
        · exact absurd hox (by simp [pickOpen_none S cs hmatch x hx])
      · simp [ha] at h
    · rw [hmatch] at h
      obtain ⟨hmem, hob, hmax⟩ := ih b hmatch
      by_cases ha : isOpenCmd S a
      · simp [ha] at h
        by_cases hgt : b.started_at > a.started_at
        · simp [hgt] at h
          subst h
          refine ⟨by simp [hmem], hob, ?_⟩
          intro x hx hox
          rcases List.mem_cons.mp hx with rfl | hx
          · exact le_of_lt hgt
          · exact hmax x hx hox
        · simp [hgt] at h
          subst h
          refine ⟨by simp, ha, ?_⟩
          intro x hx hox
          rcases List.mem_cons.mp hx with rfl | hx
          · exact le_refl _
          · exact le_trans (hmax x hx hox) (by omega)
      · simp [ha] at h
        subst h
        refine ⟨by simp [hmem], hob, ?_⟩
        intro x hx hox
        rcases List.mem_cons.mp hx with rfl | hx
        · exact absurd hox (by simp [ha])
        · exact hmax x hx hox

/-- Claim C1, counterexample: with session `S1` active, `start_session`
does not fail with an AlreadyActiveError — it succeeds (returning the new
session id `S2`) and the existing active handle is replaced (hence dropped),
so the existing session is not left untouched. -/
theorem c1_counterexample :
    (start_session stW1 120 40 "/" "sh" "S2" "t1" true true).2 = .ok "S2" ∧
    (start_session stW1 120 40 "/" "sh" "S2" "t1" true true).1.pty ≠ some sessW :=
  ⟨rfl, by decide⟩

/-- Claim C1, amended: calling `start_session` while a session is already
active does not fail; it inserts a fresh session row, spawns a fresh pty
and overwrites (drops) the previously active handle, returning the new
session id. -/
theorem c1_amended (st : AppState) (s : PtySession) (cols rows : Nat)
    (cwd shell sid ts : String) (hactive : st.pty = some s) :
    start_session st cols rows cwd shell sid ts true true
      = ({ db := { st.db with sessions := st.db.sessions ++ [⟨sid, ts, none, cwd, shell⟩] },
           pty := some (PtySession.new sid cols rows) }, .ok sid) := by
  simp [start_session, Database.create_session]

/-- Claim C1, witness: the amended statement evaluated on a state whose
registry already holds the live session `S1`. -/
theorem c1_witness :
    stW1.pty = some sessW ∧
    start_session stW1 120 40 "/" "sh" "S2" "t1" true true
      = ({ db := { stW1.db with sessions := stW1.db.sessions ++ [⟨"S2", "t1", none, "/", "sh"⟩] },
           pty := some (PtySession.new "S2" 120 40) }, .ok "S2") :=
  ⟨rfl, c1_amended stW1 sessW 120 40 "/" "sh" "S2" "t1" rfl⟩

/-- Claim C2, counterexample: submitting the invalid UTF-8 byte 0xFF and
then a newline, both logged at timestamp t1, gives retrieved events that
are not strictly ascending by timestamp, and whose concatenated `user_in`
payloads differ from the bytes actually written to the pty (0xFF was
stored as the replacement character). -/
theorem c2_counterexample :
    (runT stW2 opsC2).2.1 = [[255], [10]] ∧
    strictAsc (get_session_events (runT stW2 opsC2).1 "S") = false ∧
    kindDataOf "user_in" (get_session_events (runT stW2 opsC2).1 "S")
      ≠ concatAll (runT stW2 opsC2).2.1 :=
  ⟨by decide, by decide, by decide⟩

/-- Claim C2, amended: for a session whose event log starts empty, over any
interleaving of sends, reads, pump deliveries, resizes and pump deaths in
which every log INSERT succeeds and the recorded timestamps come out
strictly increasing, the events retrieved via `get_session_events` are
strictly ascending by timestamp and, concatenated per kind, reproduce
exactly the lossy UTF-8 decodings of the byte buffers written to and read
from the pty (the raw bytes themselves only when they are valid UTF-8). -/
theorem c2_amended (ops : List Op) (st : AppState) (s : PtySession)
    (hops : ∀ op ∈ ops, sessionOp op = true)
    (hlog : ∀ op ∈ ops, logOkOp op = true)
    (hpty : st.pty = some s)
    (hempty : eventsFor s.session_id st.db = [])
    (hasc : strictAsc (eventsFor s.session_id (runT st ops).1.db) = true) :
    strictAsc (get_session_events (runT st ops).1 s.session_id) = true ∧
    kindDataOf "user_in" (get_session_events (runT st ops).1 s.session_id)
      = concatAll (((runT st ops).2.1).map utf8Lossy) ∧
    kindDataOf "pty_out" (get_session_events (runT st ops).1 s.session_id)
      = concatAll (((runT st ops).2.2).map utf8Lossy) := by
  obtain ⟨s2, hs2, hsid, hu, hp⟩ := runT_events ops st s hops hlog hpty
  have hz : ∀ K, kindData K s.session_id st.db = [] := by
    intro K; simp [kindData, hempty, kindDataOf, concatAll]
  have hid : get_session_events (runT st ops).1 s.session_id
      = eventsFor s.session_id (runT st ops).1.db := by
    simp [get_session_events, Database.get_events, sortByTs_asc_id _ hasc]
  rw [hz] at hu hp
  refine ⟨by rw [hid]; exact hasc, ?_, ?_⟩
  · rw [hid]
    simpa [kindData] using hu
  · rw [hid]
    simpa [kindData] using hp

/-- Claim C2, witness: the amended round trip evaluated on a session that
sends "h", receives "o" from the pty and reads it back, with increasing
timestamps. -/
theorem c2_witness :
    (∀ op ∈ opsW2, sessionOp op = true) ∧
    (∀ op ∈ opsW2, logOkOp op = true) ∧
    (strictAsc (get_session_events (runT stW2 opsW2).1 "S") = true ∧
     kindDataOf "user_in" (get_session_events (runT stW2 opsW2).1 "S")
       = concatAll (((runT stW2 opsW2).2.1).map utf8Lossy) ∧
     kindDataOf "pty_out" (get_session_events (runT stW2 opsW2).1 "S")
       = concatAll (((runT stW2 opsW2).2.2).map utf8Lossy)) :=
  ⟨by decide, by decide,
   c2_amended opsW2 stW2 (PtySession.new "S" 80 24) (by decide) (by decide) rfl rfl
     (by decide)⟩

/-- Claim C3: byte buffers submitted through `write_input` are enqueued in
FIFO order, and the writer pump, draining that queue with fully-succeeding
`write_all` calls, delivers to the shell process exactly the concatenation
of the buffers in submission order, with no loss, reordering or
corruption. -/
theorem c3_fifo_delivery (s : PtySession) (bufs : List (List Nat)) (ok : Nat → Bool)
    (hopen : s.writer_tx.closed = false) (hbuf : s.writer_tx.buf = [])
    (hok : ∀ k, ok k = true) :
    (sendAll s bufs).2 = true ∧
    writerLoop ok 0 [] (sendAll s bufs).1.writer_tx.buf = concatAll bufs := by
  obtain ⟨h1, h2, h3⟩ := sendAll_open bufs s hopen
  refine ⟨h1, ?_⟩
  rw [h3, hbuf, writerLoop_ok ok hok]
  simp

/-- Claim C3, witness: the FIFO delivery theorem evaluated on a fresh
session and the buffers [1,2] and [3]. -/
theorem c3_witness :
    ((PtySession.new "S" 80 24).writer_tx.closed = false ∧
     (PtySession.new "S" 80 24).writer_tx.buf = []) ∧
    (sendAll (PtySession.new "S" 80 24) [[1, 2], [3]]).2 = true ∧
    writerLoop (fun _ => true) 0 []
        (sendAll (PtySession.new "S" 80 24) [[1, 2], [3]]).1.writer_tx.buf
      = concatAll [[1, 2], [3]] :=
  ⟨⟨rfl, rfl⟩, c3_fifo_delivery (PtySession.new "S" 80 24) [[1, 2], [3]]
    (fun _ => true) rfl rfl (fun _ => rfl)⟩

/-- Claim C4: with an active session, `resize_pty` on a zero dimension
fails with the resize error and leaves the whole state — in particular the
stored pty size — unchanged. -/
theorem c4_resize_invalid (st : AppState) (s : PtySession) (cols rows : Nat)
    (h : st.pty = some s) (hz : cols = 0 ∨ rows = 0) :
    resize_pty st cols rows
      = (st, .error ("Failed to resize: " ++ "Failed to resize PTY")) := by
  rcases hz with rfl | rfl <;> simp [resize_pty, h, PtySession.resize, osResize]

/-- Claim C4, witness: the invalid-resize theorem evaluated at cols = 0 on
a live session. -/
theorem c4_witness :
    stW2.pty = some (PtySession.new "S" 80 24) ∧ ((0 : Nat) = 0 ∨ (24 : Nat) = 0) ∧
    resize_pty stW2 0 24
      = (stW2, .error ("Failed to resize: " ++ "Failed to resize PTY")) :=
  ⟨rfl, Or.inl rfl, c4_resize_invalid stW2 (PtySession.new "S" 80 24) 0 24 rfl (Or.inl rfl)⟩

/-- Claim C5: after both pump threads terminate (channels closed) and the
output buffer is drained, `read_output` reports no data via an Ok result
(pump death is not surfaced as an error) while `write_input` fails with the
write error, both at the pty layer and through the command layer. -/
theorem c5_pump_death_masked (st : AppState) (s : PtySession) (data : List Nat)
    (eid ts : String) (lo : Bool) (h : st.pty = some s)
    (hw : s.writer_tx.closed = true) (hr : s.output_rx.buf = []) :
    s.read_output = (none, s) ∧
    s.write_input data = .error "Failed to send input to PTY" ∧
    read_output st eid ts lo = (st, .ok none) ∧
    send_input st data eid ts lo
      = (st, .error ("Failed to write input: " ++ "Failed to send input to PTY")) := by
  obtain ⟨db, pty⟩ := st
  simp only at h
  subst h
  refine ⟨by simp [PtySession.read_output, hr], by simp [PtySession.write_input, hw], ?_, ?_⟩
  · simp [read_output, PtySession.read_output, hr]
  · simp [send_input, PtySession.write_input, hw]

/-- Claim C5, witness: the pump-death theorem evaluated on a session whose
pumps have terminated. -/
theorem c5_witness :
    stW5.pty = some deadSession ∧
    deadSession.writer_tx.closed = true ∧
    deadSession.output_rx.buf = [] ∧
    read_output stW5 "e" "t" true = (stW5, .ok none) ∧
    send_input stW5 [13] "e" "t" true
      = (stW5, .error ("Failed to write input: " ++ "Failed to send input to PTY")) :=
  ⟨rfl, rfl, rfl,
   (c5_pump_death_masked stW5 deadSession [13] "e" "t" true rfl rfl rfl).2.2.1,
   (c5_pump_death_masked stW5 deadSession [13] "e" "t" true rfl rfl rfl).2.2.2⟩

/-- Claim C6: a failed `pty_out` log INSERT neither fails `read_output` nor
withholds the chunk (the database is simply left unchanged), while a failed
`user_in` log INSERT, a failed end-session UPDATE and a failed
start-session INSERT are each surfaced to the caller as errors. -/
theorem c6_logging_policy (st : AppState) (s : PtySession) (d : List Nat)
    (bs : List (List Nat)) (eid ts : String) (cols rows : Nat) (cwd shell sid : String)
    (h : st.pty = some s) :
    (s.output_rx.buf = d :: bs →
      (read_output st eid ts false).2 = .ok (some d) ∧
      (read_output st eid ts false).1.db = st.db) ∧
    (s.writer_tx.closed = false →
      (send_input st d eid ts false).2 = .error "Failed to log input") ∧
    (end_session st ts false).2 = .error "Failed to end session" ∧
    (start_session st cols rows cwd shell sid ts false true).2
      = .error "Failed to create session" := by
  refine ⟨?_, ?_, ?_, ?_⟩
  · intro hb
    simp [read_output, h, PtySession.read_output, hb]
  · intro hw
    simp [send_input, h, PtySession.write_input, hw]
  · simp [end_session, h]
  · simp [start_session]

/-- Claim C6, witness: the logging-policy theorem evaluated on a live
session with failing INSERT and UPDATE oracles. -/
theorem c6_witness :
    ((PtySession.new "S" 80 24).writer_tx.closed = false) ∧
    (send_input stW2 [7] "e" "t" false).2 = .error "Failed to log input" ∧
    (end_session stW2 "t" false).2 = .error "Failed to end session" ∧
    (start_session stW2 80 24 "/" "sh" "S9" "t" false true).2
      = .error "Failed to create session" :=
  ⟨rfl,
   (c6_logging_policy stW2 (PtySession.new "S" 80 24) [7] [] "e" "t" 80 24 "/" "sh" "S9"
      rfl).2.1 rfl,
   (c6_logging_policy stW2 (PtySession.new "S" 80 24) [7] [] "e" "t" 80 24 "/" "sh" "S9"
      rfl).2.2.1,
   (c6_logging_policy stW2 (PtySession.new "S" 80 24) [7] [] "e" "t" 80 24 "/" "sh" "S9"
      rfl).2.2.2⟩

/-- Claim C7: `end_session` with no active handle succeeds as a no-op
changing nothing; with an active handle it removes and drops the handle and
marks the session row closed (its `ended_at` becomes non-null) in the
database. -/
theorem c7_end_idempotent (st : AppState) (s : PtySession) (ts : String) (dbOk : Bool) :
    (st.pty = none → end_session st ts dbOk = (st, .ok ())) ∧
    (st.pty = some s →
      end_session st ts true
        = ({ db := st.db.end_session s.session_id ts, pty := none }, .ok ()) ∧
      ∀ x ∈ (st.db.end_session s.session_id ts).sessions,
        x.id = s.session_id → x.ended_at = some ts) := by
  constructor
  · intro h; simp [end_session, h]
  · intro h
    refine ⟨by simp [end_session, h], ?_⟩
    intro x hx hid
    simp [Database.end_session, List.mem_map] at hx
    obtain ⟨y, hy, hyx⟩ := hx
    by_cases hcase : y.id = s.session_id
    · rw [← hyx]; simp [hcase]
    · rw [← hyx] at hid ⊢
      simp [hcase] at hid

/-- Claim C7, witness: `end_session` evaluated on a state with no handle
(no-op success) and on a state with a live handle (handle dropped, row
marked closed). -/
theorem c7_witness :
    end_session stNone "t1" true = (stNone, .ok ()) ∧
    end_session stW5 "t1" true
      = ({ db := stW5.db.end_session deadSession.session_id "t1", pty := none }, .ok ()) :=
  ⟨(c7_end_idempotent stNone deadSession "t1" true).1 rfl,
   ((c7_end_idempotent stW5 deadSession "t1" true).2 rfl).1⟩

/-- Claim C8, counterexample: after two `create_command` calls for session
`S` without ending the first, the database holds two commands of `S` with
no end timestamp, so the at-most-one-unterminated-command invariant fails. -/
theorem c8_counterexample :
    ¬ (((((⟨[⟨"S", "t0", none, "/", "sh"⟩], [], []⟩ : Database).create_command
          "c1" "S" "ls" 100).1.create_command "c2" "S" "pwd" 200).1.commands.filter
            (isOpenCmd "S")).length ≤ 1) := by decide

/-- Claim C8, amended: `end_command` is a no-op when the session has no
unterminated command, and otherwise terminates an unterminated command of
the session whose start timestamp is maximal (the most recently started
one); but the code does not enforce at most one unterminated command per
session — `create_command` inserts an unterminated row unconditionally. -/
theorem c8_amended (db : Database) (S : String) (ec t : Int) :
    (pickOpen S db.commands = none →
      db.end_command S ec t = db ∧ ∀ x ∈ db.commands, isOpenCmd S x = false) ∧
    (∀ c, pickOpen S db.commands = some c →
      c ∈ db.commands ∧ isOpenCmd S c = true ∧
      (∀ x ∈ db.commands, isOpenCmd S x = true → x.started_at ≤ c.started_at) ∧
      db.end_command S ec t
        = { db with commands := db.commands.map (fun x =>
            if x.id == c.id then { x with ended_at := some t, exit_code := some ec }
            else x) }) := by
  constructor
  · intro h
    exact ⟨by simp [Database.end_command, h], pickOpen_none S db.commands h⟩
  · intro c h
    obtain ⟨hmem, hopen, hmax⟩ := pickOpen_some S db.commands c h
    exact ⟨hmem, hopen, hmax, by simp [Database.end_command, h]⟩

/-- Claim C8, witness: on a database with two unterminated commands for
session `S`, `end_command` terminates exactly the most recently started one
(c2, started at 200), leaving c1 unterminated. -/
theorem c8_witness :
    pickOpen "S" dbW8.commands = some cmdW8 ∧
    (∀ x ∈ dbW8.commands, isOpenCmd "S" x = true → x.started_at ≤ cmdW8.started_at) ∧
    dbW8.end_command "S" 0 500
      = ⟨[], [], [⟨"c1", "S", 100, none, none, "ls"⟩,
                  ⟨"c2", "S", 200, some 500, some 0, "pwd"⟩]⟩ := by
  refine ⟨rfl, ?_, ?_⟩
  · exact ((c8_amended dbW8 "S" 0 500).2 cmdW8 rfl).2.2.1
  · exact ((c8_amended dbW8 "S" 0 500).2 cmdW8 rfl).2.2.2.trans (by decide)

/-- Claim C9: when no session is active, `send_input`, `read_output` and
`resize_pty` all succeed and leave the state untouched: `send_input`
returns Ok without enqueueing or logging, `read_output` returns the empty
result, and `resize_pty` returns Ok without touching any pty. -/
theorem c9_no_session_noop (st : AppState) (data : List Nat) (eid ts : String)
    (lo : Bool) (cols rows : Nat) (h : st.pty = none) :
    send_input st data eid ts lo = (st, .ok ()) ∧
    read_output st eid ts lo = (st, .ok none) ∧
    resize_pty st cols rows = (st, .ok ()) := by
  simp [send_input, read_output, resize_pty, h]

/-- Claim C9, witness: the no-session theorem evaluated on a state whose
registry slot is empty. -/
theorem c9_witness :
    stNone.pty = none ∧
    send_input stNone [3] "e" "t" true = (stNone, .ok ()) ∧
    read_output stNone "e" "t" true = (stNone, .ok none) ∧
    resize_pty stNone 0 0 = (stNone, .ok ()) :=
  ⟨rfl,
   (c9_no_session_noop stNone [3] "e" "t" true 0 0 rfl).1,
   (c9_no_session_noop stNone [3] "e" "t" true 0 0 rfl).2.1,
   (c9_no_session_noop stNone [3] "e" "t" true 0 0 rfl).2.2⟩

/-- Claim C10: when the session INSERT succeeds but the pty spawn fails,
`start_session` returns an error yet the inserted session row (with a null
end timestamp) persists in the database and the registry slot is left as it
was — the start operation is not atomic on error. -/
theorem c10_nonatomic_start (st : AppState) (cols rows : Nat) (cwd shell sid ts : String) :
    start_session st cols rows cwd shell sid ts true false
      = ({ db := { st.db with sessions := st.db.sessions ++ [⟨sid, ts, none, cwd, shell⟩] },
           pty := st.pty }, .error "Failed to create PTY") ∧
    ∃ sess ∈ (start_session st cols rows cwd shell sid ts true false).1.db.sessions,
      sess.id = sid ∧ sess.ended_at = none := by
  constructor
  · simp [start_session, Database.create_session]
  · exact ⟨⟨sid, ts, none, cwd, shell⟩,
      by simp [start_session, Database.create_session], rfl, rfl⟩

end Vibe
